import Mathlib

/-!
Shallow embedding of `Source/astcenc_encoding_choice_error.cpp` (astc-encoder).

Floating-point values are modelled as exact rationals (`ℚ`).  The single
irrational primitive used by the source, `sqrt` inside `normalize`, is
modelled by `sqrtQ`, a deterministic rational stand-in that is exact on
perfect squares; every structural theorem below holds independently of the
values `sqrtQ` returns, and concrete witnesses only use inputs on which
`sqrtQ` agrees with the real square root.  Division by zero is total (zero)
in `ℚ` where IEEE floats would produce NaN or infinity; this is noted where
it matters.
-/

namespace Astc

/-- 4-lane vector of rationals, modelling `vfloat4` (lanes x, y, z, w =
R, G, B, A). -/
structure Vec4 where
  x : ℚ
  y : ℚ
  z : ℚ
  w : ℚ
deriving DecidableEq

instance : Add Vec4 where
  add a b := ⟨a.x + b.x, a.y + b.y, a.z + b.z, a.w + b.w⟩

instance : Sub Vec4 where
  sub a b := ⟨a.x - b.x, a.y - b.y, a.z - b.z, a.w - b.w⟩

/-- Componentwise product, modelling the lanewise `vfloat4` multiply. -/
instance : Mul Vec4 where
  mul a b := ⟨a.x * b.x, a.y * b.y, a.z * b.z, a.w * b.w⟩

def Vec4.zero : Vec4 := ⟨0, 0, 0, 0⟩

/-- Scalar-times-vector, modelling `float * vfloat4`. -/
def Vec4.smul (q : ℚ) (v : Vec4) : Vec4 := ⟨q * v.x, q * v.y, q * v.z, q * v.w⟩

/-- Lanewise absolute value, modelling `abs(vfloat4)`. -/
def Vec4.abs4 (a : Vec4) : Vec4 := ⟨|a.x|, |a.y|, |a.z|, |a.w|⟩

/-- Lanewise max against a scalar, modelling `max(vfloat4, float)`. -/
def Vec4.maxScalar (a : Vec4) (t : ℚ) : Vec4 := ⟨max a.x t, max a.y t, max a.z t, max a.w t⟩

/-- Lanewise reciprocal, modelling `1.0f / vfloat4`. -/
def Vec4.inv4 (a : Vec4) : Vec4 := ⟨1 / a.x, 1 / a.y, 1 / a.z, 1 / a.w⟩

/-- Modelling `v.set_lane<3>(q)`. -/
def Vec4.setLane3 (a : Vec4) (q : ℚ) : Vec4 := ⟨a.x, a.y, a.z, q⟩

/-- Lane projection, used to state per-lane properties. -/
def Vec4.lane (v : Vec4) (j : Fin 4) : ℚ :=
  match j with
  | ⟨0, _⟩ => v.x
  | ⟨1, _⟩ => v.y
  | ⟨2, _⟩ => v.z
  | ⟨3, _⟩ => v.w

/-- 3-component dot product, modelling `dot3_s` (alpha lane ignored). -/
def dot3s (a b : Vec4) : ℚ := a.x * b.x + a.y * b.y + a.z * b.z

/-- 4-component dot product, modelling the `dot` used inside `normalize`. -/
def dot4s (a b : Vec4) : ℚ := a.x * b.x + a.y * b.y + a.z * b.z + a.w * b.w

/-- Rational stand-in for single-precision `sqrtf`: exact on perfect
squares, a floor approximation elsewhere. -/
def sqrtQ (q : ℚ) : ℚ := (Nat.sqrt (q.num.toNat * q.den) : ℚ) / (q.den : ℚ)

/-- Modelling `normalize(a) = a / sqrt(dot(a, a))`.  For the zero vector the
float code would produce NaN; in `ℚ` the division is total and yields zero. -/
def normalize (a : Vec4) : Vec4 :=
  let len := sqrtQ (dot4s a a)
  ⟨a.x / len, a.y / len, a.z / len, a.w / len⟩

/-- Lane-comparison mask, modelling `vmask4`. -/
structure VMask4 where
  m0 : Bool
  m1 : Bool
  m2 : Bool
  m3 : Bool

def VMask4.land (a b : VMask4) : VMask4 :=
  ⟨a.m0 && b.m0, a.m1 && b.m1, a.m2 && b.m2, a.m3 && b.m3⟩

/-- Modelling `mask(vmask4)`: bit i of the result is lane i. -/
def maskBits (m : VMask4) : ℕ :=
  (cond m.m0 1 0) + (cond m.m1 2 0) + (cond m.m2 4 0) + (cond m.m3 8 0)

/-- Modelling `select(a, b, cond)`: lane taken from `b` where the mask is set. -/
def select4 (a b : Vec4) (m : VMask4) : Vec4 :=
  ⟨cond m.m0 b.x a.x, cond m.m1 b.y a.y, cond m.m2 b.z a.z, cond m.m3 b.w a.w⟩

/-- Modelling `vint4::lane_id() == vint4(c)`. -/
def laneIdEq (c : ℕ) : VMask4 :=
  ⟨decide (0 = c), decide (1 = c), decide (2 = c), decide (3 = c)⟩

/-- Lanewise strict less-than against a scalar, `v < vfloat4(t)`. -/
def ltMask (a : Vec4) (t : ℚ) : VMask4 :=
  ⟨decide (a.x < t), decide (a.y < t), decide (a.z < t), decide (a.w < t)⟩

/-- Lanewise strict greater-than against a scalar, `v > vfloat4(t)`. -/
def gtMask (a : Vec4) (t : ℚ) : VMask4 :=
  ⟨decide (t < a.x), decide (t < a.y), decide (t < a.z), decide (t < a.w)⟩

/-- The literal `1e-20f` used as the texel-weight / average-length cutoff. -/
def eps20 : ℚ := 1 / 10 ^ 20

/-- The literal `1e-7f` used to floor scale factors before inversion. -/
def eps7 : ℚ := 1 / 10 ^ 7

/-- The offset-encode threshold `0.12f * 65535.0f`. -/
def offsetThreshold : ℚ := (12 / 100) * 65535

/-- The blue-contract lower bound `0.01f * 65535.0f`. -/
def bcLow : ℚ := (1 / 100) * 65535

/-- The blue-contract upper bound `0.99f * 65535.0f`. -/
def bcHigh : ℚ := (99 / 100) * 65535

/-- Per-partition endpoint pairs, modelling `endpoints`.  The C arrays have
four slots; slots at or beyond `partition_count` are never written by
`merge_endpoints`, which we model by leaving them at the first input's
values. -/
structure Endpoints where
  partition_count : ℕ
  endpt0 : ℕ → Vec4
  endpt1 : ℕ → Vec4

/-- Modelling `partition_info` (only the fields this file reads). -/
structure PartitionInfo where
  partition_count : ℕ
  partition_of_texel : ℕ → ℕ

/-- Modelling `imageblock` (only the fields this file reads). -/
structure ImageBlock where
  texel : ℕ → Vec4
  alpha_lns : ℕ → Bool

/-- Modelling `error_weight_block` (only the fields this file reads). -/
structure ErrorWeightBlock where
  texel_weight_rgb : ℕ → ℚ
  error_weights : ℕ → Vec4

/-- Modelling `line3`. -/
structure Line3 where
  a : Vec4
  b : Vec4

/-- Modelling `processed_line3`. -/
structure ProcessedLine3 where
  amod : Vec4
  bs : Vec4
  bis : Vec4

/-- Modelling `merge_endpoints`: for each partition below the count, the
separate component's lane comes from `ep2`, all other lanes from `ep1`. -/
def merge_endpoints (ep1 ep2 : Endpoints) (separate_component : ℕ) : Endpoints :=
  let sep_mask := laneIdEq separate_component
  { partition_count := ep1.partition_count
    endpt0 := fun i =>
      if i < ep1.partition_count then select4 (ep1.endpt0 i) (ep2.endpt0 i) sep_mask
      else ep1.endpt0 i
    endpt1 := fun i =>
      if i < ep1.partition_count then select4 (ep1.endpt1 i) (ep2.endpt1 i) sep_mask
      else ep1.endpt1 i }

/-- The `continue` condition of the accumulator loop: a texel is skipped
when its partition differs from the tested one or its RGB weight is below
`1e-20`. -/
def skipTexel (partition_to_test : ℕ) (pt : PartitionInfo) (ewb : ErrorWeightBlock)
    (i : ℕ) : Bool :=
  decide (pt.partition_of_texel i ≠ partition_to_test) ||
    decide (ewb.texel_weight_rgb i < eps20)

/-- One texel's squared projection error against a processed line:
`param = dot3(point, bs)`, `rp1 = amod + param * bis`, channel-weighted
squared distance over R, G, B. -/
def lineErrorTerm (pline : ProcessedLine3) (point ews : Vec4) : ℚ :=
  let param := dot3s point pline.bs
  let rp1 := pline.amod + Vec4.smul param pline.bis
  let dist := rp1 - point
  dot3s ews (dist * dist)

/-- One texel's squared projection error against the luminance line, whose
`amod` is known to be zero and is omitted in the source. -/
def lumaErrorTerm (pline : ProcessedLine3) (point ews : Vec4) : ℚ :=
  let param := dot3s point pline.bs
  let rp1 := Vec4.smul param pline.bis
  let dist := rp1 - point
  dot3s ews (dist * dist)

/-- One texel's alpha-drop error: alpha-weighted squared distance from the
default alpha (`0x7800` when the texel's alpha is logarithmic, else
`0xFFFF`). -/
def alphaDropTerm (blk : ImageBlock) (ewb : ErrorWeightBlock) (i : ℕ) : ℚ :=
  let default_alpha : ℚ := if blk.alpha_lns i then 30720 else 65535
  let omalpha := (blk.texel i).w - default_alpha
  omalpha * omalpha * (ewb.error_weights i).w

/-- The five sums produced by one accumulator pass. -/
structure ErrorSums where
  uncor_err : ℚ
  samec_err : ℚ
  rgbl_err : ℚ
  l_err : ℚ
  a_drop_err : ℚ
deriving DecidableEq

/-- Modelling `compute_error_squared_rgb_single_partition`: a single pass
over the block's texels accumulating all five sums; the loop is modelled as
five sums over `Finset.range texel_count` (exact rational addition is
associative and commutative, so the reduction order is immaterial). -/
def compute_error_squared_rgb_single_partition
    (partition_to_test : ℕ) (texel_count : ℕ)
    (pt : PartitionInfo) (blk : ImageBlock) (ewb : ErrorWeightBlock)
    (uncor_pline samec_pline rgbl_pline l_pline : ProcessedLine3) : ErrorSums :=
  { uncor_err := ∑ i in Finset.range texel_count,
      if skipTexel partition_to_test pt ewb i then 0
      else lineErrorTerm uncor_pline (blk.texel i) (ewb.error_weights i)
    samec_err := ∑ i in Finset.range texel_count,
      if skipTexel partition_to_test pt ewb i then 0
      else lineErrorTerm samec_pline (blk.texel i) (ewb.error_weights i)
    rgbl_err := ∑ i in Finset.range texel_count,
      if skipTexel partition_to_test pt ewb i then 0
      else lineErrorTerm rgbl_pline (blk.texel i) (ewb.error_weights i)
    l_err := ∑ i in Finset.range texel_count,
      if skipTexel partition_to_test pt ewb i then 0
      else lumaErrorTerm l_pline (blk.texel i) (ewb.error_weights i)
    a_drop_err := ∑ i in Finset.range texel_count,
      if skipTexel partition_to_test pt ewb i then 0
      else alphaDropTerm blk ewb i }

/-- The per-partition color statistics supplied by the external
collaborators `compute_partition_error_color_weightings` and
`compute_averages_and_directions_rgb`, which live outside this file; they
enter the evaluator as inputs.  (`error_weightings` is computed by the
source but never read afterwards, so it is omitted.) -/
structure ColorStatistics where
  averages : ℕ → Vec4
  directions_rgb : ℕ → Vec4
  color_scalefactors : ℕ → Vec4

/-- The output record per partition, modelling `encoding_choice_errors`. -/
structure EncodingChoiceErrors where
  rgb_scale_error : ℚ
  rgb_luma_error : ℚ
  luminance_error : ℚ
  alpha_drop_error : ℚ
  can_offset_encode : Bool
  can_blue_contract : Bool
deriving DecidableEq

/-- `csf`: the partition's color scale factors with the alpha lane zeroed. -/
def csfFor (stats : ColorStatistics) (i : ℕ) : Vec4 :=
  (stats.color_scalefactors i).setLane3 0

/-- `icsf = 1.0f / max(color_scalefactors[i], 1e-7f)` with the alpha lane
zeroed. -/
def icsfFor (stats : ColorStatistics) (i : ℕ) : Vec4 :=
  (((stats.color_scalefactors i).maxScalar eps7).inv4).setLane3 0

/-- The uncorrelated-RGB candidate line: origin at the average, direction
the normalized dominant direction, falling back to the normalized scale
factors when the direction has squared length exactly zero. -/
def uncorrLine (avg dir csf : Vec4) : Line3 :=
  { a := avg
    b := if dot3s dir dir = 0 then normalize csf else normalize dir }

/-- The same-chroma (RGB-scale) candidate line: origin zero, direction the
normalized average, falling back to the normalized scale factors when the
average's squared length is below `1e-20`. -/
def samechromaLine (avg csf : Vec4) : Line3 :=
  { a := Vec4.zero
    b := if dot3s avg avg < eps20 then normalize csf else normalize avg }

/-- The HDR-luma candidate line: origin at the average, direction the
normalized scale factors. -/
def rgbLumaLine (avg csf : Vec4) : Line3 :=
  { a := avg
    b := normalize csf }

/-- Conversion of a line to processed form:
`amod = (a - b * dot3(a, b)) * icsf`, `bs = b * csf`, `bis = b * icsf`. -/
def processLine (line : Line3) (csf icsf : Vec4) : ProcessedLine3 :=
  { amod := (line.a - Vec4.smul (dot3s line.a line.b) line.b) * icsf
    bs := line.b * csf
    bis := line.b * icsf }

/-- The luminance line is built directly in processed form: `amod` is zero
because the line always passes through the origin. -/
def luminanceProcessedLine (csf icsf : Vec4) : ProcessedLine3 :=
  { amod := Vec4.zero
    bs := normalize csf * csf
    bis := normalize csf * icsf }

/-- The processed uncorrelated line for partition i. -/
def procUncorr (stats : ColorStatistics) (i : ℕ) : ProcessedLine3 :=
  processLine (uncorrLine (stats.averages i) (stats.directions_rgb i) (csfFor stats i))
    (csfFor stats i) (icsfFor stats i)

/-- The processed same-chroma line for partition i. -/
def procSamechroma (stats : ColorStatistics) (i : ℕ) : ProcessedLine3 :=
  processLine (samechromaLine (stats.averages i) (csfFor stats i))
    (csfFor stats i) (icsfFor stats i)

/-- The processed HDR-luma line for partition i. -/
def procRgbLuma (stats : ColorStatistics) (i : ℕ) : ProcessedLine3 :=
  processLine (rgbLumaLine (stats.averages i) (csfFor stats i))
    (csfFor stats i) (icsfFor stats i)

/-- The processed luminance line for partition i. -/
def procLuminance (stats : ColorStatistics) (i : ℕ) : ProcessedLine3 :=
  luminanceProcessedLine (csfFor stats i) (icsfFor stats i)

/-- The accumulator invocation for partition i, with the four candidate
lines built from the partition's statistics. -/
def partitionErrorSums (stats : ColorStatistics) (texel_count : ℕ)
    (pt : PartitionInfo) (blk : ImageBlock) (ewb : ErrorWeightBlock) (i : ℕ) : ErrorSums :=
  compute_error_squared_rgb_single_partition i texel_count pt blk ewb
    (procUncorr stats i) (procSamechroma stats i) (procRgbLuma stats i) (procLuminance stats i)

/-- The offset-encode eligibility test: lanewise `|endpt1 - endpt0| <
0.12 * 65535`, with the low three mask bits (R, G, B) required. -/
def canOffsetEncode (endpt0 endpt1 : Vec4) : Bool :=
  let endpt_diff := Vec4.abs4 (endpt1 - endpt0)
  let endpt_can_offset := ltMask endpt_diff offsetThreshold
  decide (maskBits endpt_can_offset &&& 7 = 7)

/-- The blue-contract eligibility test as the source writes it: the four
contracted proxies are packed into one vector in the order
(R0, R1, G0, G1), each lane compared strictly against the two bounds, and
the low three mask bits required — so the fourth packed value (the second
endpoint's green proxy) never influences the result. -/
def canBlueContract (endpt0 endpt1 : Vec4) : Bool :=
  let endpt_diff_bc : Vec4 :=
    ⟨endpt0.x + (endpt0.x - endpt0.z),
     endpt1.x + (endpt1.x - endpt1.z),
     endpt0.y + (endpt0.y - endpt0.z),
     endpt1.y + (endpt1.y - endpt1.z)⟩
  let endpt_can_bc_lo := gtMask endpt_diff_bc bcLow
  let endpt_can_bc_hi := ltMask endpt_diff_bc bcHigh
  decide (maskBits (VMask4.land endpt_can_bc_lo endpt_can_bc_hi) &&& 7 = 7)

/-- The body of the per-partition loop of `compute_encoding_choice_errors`:
build the four lines, run the accumulator, derive the four calibrated error
fields and the two eligibility flags. -/
def encodingChoiceErrorFor (stats : ColorStatistics) (texel_count : ℕ)
    (pt : PartitionInfo) (blk : ImageBlock) (ewb : ErrorWeightBlock)
    (ep : Endpoints) (i : ℕ) : EncodingChoiceErrors :=
  let sums := partitionErrorSums stats texel_count pt blk ewb i
  { rgb_scale_error := (sums.samec_err - sums.uncor_err) * (7 / 10)
    rgb_luma_error := (sums.rgbl_err - sums.uncor_err) * (3 / 2)
    luminance_error := (sums.l_err - sums.uncor_err) * 3
    alpha_drop_error := sums.a_drop_err * 3
    can_offset_encode := canOffsetEncode (ep.endpt0 i) (ep.endpt1 i)
    can_blue_contract := canBlueContract (ep.endpt0 i) (ep.endpt1 i) }

/-- Modelling `compute_encoding_choice_errors`.  The color statistics and
the per-plane endpoint fits are produced by external collaborators and
enter as inputs; in single-plane mode (`separate_component = -1`) the
single fit is used directly, otherwise the two fits are merged. -/
def compute_encoding_choice_errors (texel_count : ℕ)
    (pt : PartitionInfo) (blk : ImageBlock) (ewb : ErrorWeightBlock)
    (stats : ColorStatistics) (separate_component : ℤ)
    (ep_single ep_plane1 ep_plane2 : Endpoints) : ℕ → EncodingChoiceErrors :=
  let ep :=
    if separate_component = -1 then ep_single
    else merge_endpoints ep_plane1 ep_plane2 separate_component.toNat
  fun i => encodingChoiceErrorFor stats texel_count pt blk ewb ep i

/-- Modelled from the spec: blue contraction is eligible iff all FOUR
contracted proxy values (both endpoints' red and green proxies) lie
strictly between `0.01 * 65535` and `0.99 * 65535`. -/
def specCanBlueContract (endpt0 endpt1 : Vec4) : Bool :=
  let r0 := endpt0.x + (endpt0.x - endpt0.z)
  let r1 := endpt1.x + (endpt1.x - endpt1.z)
  let g0 := endpt0.y + (endpt0.y - endpt0.z)
  let g1 := endpt1.y + (endpt1.y - endpt1.z)
  decide (bcLow < r0 ∧ r0 < bcHigh) && decide (bcLow < r1 ∧ r1 < bcHigh) &&
    decide (bcLow < g0 ∧ g0 < bcHigh) && decide (bcLow < g1 ∧ g1 < bcHigh)

/-- Modelled from the spec: a texel is selected only when its partition
matches and its RGB error weight strictly EXCEEDS `1e-20`. -/
def specSelectedStrict (partition_to_test : ℕ) (pt : PartitionInfo)
    (ewb : ErrorWeightBlock) (i : ℕ) : Bool :=
  decide (pt.partition_of_texel i = partition_to_test) &&
    decide (eps20 < ewb.texel_weight_rgb i)

/-- Modelled from the spec, as amended: a texel is selected when its
partition matches and its RGB error weight is at least `1e-20`. -/
def specSelectedGE (partition_to_test : ℕ) (pt : PartitionInfo)
    (ewb : ErrorWeightBlock) (i : ℕ) : Bool :=
  decide (pt.partition_of_texel i = partition_to_test) &&
    decide (eps20 ≤ ewb.texel_weight_rgb i)

/-- The five accumulator sums restricted by a given selection rule; used to
compare the source accumulator against the spec's selection rule. -/
def specErrorSums (selected : ℕ → Bool) (texel_count : ℕ)
    (blk : ImageBlock) (ewb : ErrorWeightBlock)
    (uncor_pline samec_pline rgbl_pline l_pline : ProcessedLine3) : ErrorSums :=
  { uncor_err := ∑ i in Finset.range texel_count,
      if selected i then lineErrorTerm uncor_pline (blk.texel i) (ewb.error_weights i) else 0
    samec_err := ∑ i in Finset.range texel_count,
      if selected i then lineErrorTerm samec_pline (blk.texel i) (ewb.error_weights i) else 0
    rgbl_err := ∑ i in Finset.range texel_count,
      if selected i then lineErrorTerm rgbl_pline (blk.texel i) (ewb.error_weights i) else 0
    l_err := ∑ i in Finset.range texel_count,
      if selected i then lumaErrorTerm l_pline (blk.texel i) (ewb.error_weights i) else 0
    a_drop_err := ∑ i in Finset.range texel_count,
      if selected i then alphaDropTerm blk ewb i else 0 }

/-- All four lanes of every per-texel channel error weight are
non-negative. -/
def nonnegWeights (ewb : ErrorWeightBlock) : Prop :=
  ∀ i, 0 ≤ (ewb.error_weights i).x ∧ 0 ≤ (ewb.error_weights i).y ∧
    0 ≤ (ewb.error_weights i).z ∧ 0 ≤ (ewb.error_weights i).w

/-- Concrete statistics used by witnesses: every quantity the evaluator
normalizes has a perfect-square squared length, so `sqrtQ` is exact on this
input. -/
def wStats : ColorStatistics :=
  { averages := fun _ => ⟨4, 2, 4, 0⟩
    directions_rgb := fun _ => ⟨1, -2, 2, 0⟩
    color_scalefactors := fun _ => ⟨2, 1, 2, 1⟩ }

/-- Concrete single-partition assignment used by witnesses. -/
def wPt : PartitionInfo := { partition_count := 1, partition_of_texel := fun _ => 0 }

/-- Concrete one-texel block used by witnesses; its color is collinear (in
scaled space) with the same-chroma direction of `wStats`. -/
def wBlk : ImageBlock := { texel := fun _ => ⟨1, 1, 1, 65535⟩, alpha_lns := fun _ => false }

/-- Concrete unit error weights used by witnesses. -/
def wEwb : ErrorWeightBlock :=
  { texel_weight_rgb := fun _ => 1, error_weights := fun _ => ⟨1, 1, 1, 1⟩ }

/-- Concrete (all-zero) endpoint set used by witnesses that do not exercise
the flags. -/
def wEp : Endpoints :=
  { partition_count := 1, endpt0 := fun _ => Vec4.zero, endpt1 := fun _ => Vec4.zero }

/-- Error weights whose RGB scalar weight is zero (below the `1e-20`
cutoff) for every texel. -/
def zEwb : ErrorWeightBlock :=
  { texel_weight_rgb := fun _ => 0, error_weights := fun _ => ⟨1, 1, 1, 1⟩ }

/-- Statistics with an exactly-zero average color, exercising the
same-chroma fallback. -/
def zStats : ColorStatistics :=
  { averages := fun _ => Vec4.zero
    directions_rgb := fun _ => Vec4.zero
    color_scalefactors := fun _ => ⟨2, 1, 2, 1⟩ }

/-- Concrete single-partition assignment for boundary-weight inputs. -/
def cPt : PartitionInfo := { partition_count := 1, partition_of_texel := fun _ => 0 }

/-- A block whose single texel is fully zero (alpha 0, so dropping alpha
against the default 0xFFFF costs a large squared error). -/
def cBlk : ImageBlock := { texel := fun _ => ⟨0, 0, 0, 0⟩, alpha_lns := fun _ => false }

/-- Error weights whose RGB scalar weight is EXACTLY the `1e-20` cutoff. -/
def cEwb : ErrorWeightBlock :=
  { texel_weight_rgb := fun _ => eps20, error_weights := fun _ => ⟨1, 1, 1, 1⟩ }

/-- The all-zero processed line. -/
def plZero : ProcessedLine3 := ⟨Vec4.zero, Vec4.zero, Vec4.zero⟩

/-- Endpoints whose fourth blue-contract proxy (the second endpoint's green
proxy, `60000 + (60000 - 20000) = 100000`) is far outside the legal range
while the other three proxies are inside it. -/
def bugEp : Endpoints :=
  { partition_count := 1
    endpt0 := fun _ => ⟨30000, 30000, 30000, 0⟩
    endpt1 := fun _ => ⟨30000, 60000, 20000, 0⟩ }

/-- First endpoint set for the merge witness. -/
def mEp1 : Endpoints :=
  { partition_count := 1
    endpt0 := fun _ => ⟨10, 11, 12, 13⟩
    endpt1 := fun _ => ⟨20, 21, 22, 23⟩ }

/-- Second endpoint set for the merge witness. -/
def mEp2 : Endpoints :=
  { partition_count := 1
    endpt0 := fun _ => ⟨50, 51, 52, 53⟩
    endpt1 := fun _ => ⟨60, 61, 62, 63⟩ }

@[simp] lemma Vec4.add_x (a b : Vec4) : (a + b).x = a.x + b.x := rfl

@[simp] lemma Vec4.add_y (a b : Vec4) : (a + b).y = a.y + b.y := rfl

@[simp] lemma Vec4.add_z (a b : Vec4) : (a + b).z = a.z + b.z := rfl

@[simp] lemma Vec4.add_w (a b : Vec4) : (a + b).w = a.w + b.w := rfl

@[simp] lemma Vec4.sub_x (a b : Vec4) : (a - b).x = a.x - b.x := rfl

@[simp] lemma Vec4.sub_y (a b : Vec4) : (a - b).y = a.y - b.y := rfl

@[simp] lemma Vec4.sub_z (a b : Vec4) : (a - b).z = a.z - b.z := rfl

@[simp] lemma Vec4.sub_w (a b : Vec4) : (a - b).w = a.w - b.w := rfl

@[simp] lemma Vec4.mul_x (a b : Vec4) : (a * b).x = a.x * b.x := rfl

@[simp] lemma Vec4.mul_y (a b : Vec4) : (a * b).y = a.y * b.y := rfl

@[simp] lemma Vec4.mul_z (a b : Vec4) : (a * b).z = a.z * b.z := rfl

@[simp] lemma Vec4.mul_w (a b : Vec4) : (a * b).w = a.w * b.w := rfl

@[simp] lemma Vec4.smul_x (q : ℚ) (v : Vec4) : (Vec4.smul q v).x = q * v.x := rfl

@[simp] lemma Vec4.smul_y (q : ℚ) (v : Vec4) : (Vec4.smul q v).y = q * v.y := rfl

@[simp] lemma Vec4.smul_z (q : ℚ) (v : Vec4) : (Vec4.smul q v).z = q * v.z := rfl

@[simp] lemma Vec4.smul_w (q : ℚ) (v : Vec4) : (Vec4.smul q v).w = q * v.w := rfl

@[simp] lemma Vec4.setLane3_x (v : Vec4) (q : ℚ) : (v.setLane3 q).x = v.x := rfl

@[simp] lemma Vec4.setLane3_y (v : Vec4) (q : ℚ) : (v.setLane3 q).y = v.y := rfl

@[simp] lemma Vec4.setLane3_z (v : Vec4) (q : ℚ) : (v.setLane3 q).z = v.z := rfl

@[simp] lemma Vec4.setLane3_w (v : Vec4) (q : ℚ) : (v.setLane3 q).w = q := rfl

@[simp] lemma Vec4.abs4_x (a : Vec4) : a.abs4.x = |a.x| := rfl

@[simp] lemma Vec4.abs4_y (a : Vec4) : a.abs4.y = |a.y| := rfl

@[simp] lemma Vec4.abs4_z (a : Vec4) : a.abs4.z = |a.z| := rfl

@[simp] lemma Vec4.abs4_w (a : Vec4) : a.abs4.w = |a.w| := rfl

/-- The low-three-bits test on a mask holds exactly when the first three
lanes are all set. -/
lemma maskBits_and7 (m : VMask4) :
    (maskBits m &&& 7 = 7) ↔ (m.m0 = true ∧ m.m1 = true ∧ m.m2 = true) := by
  obtain ⟨a, b, c, d⟩ := m
  cases a <;> cases b <;> cases c <;> cases d <;> decide

/-- Characterization of the offset-encode flag: true exactly when the R, G
and B endpoint differences are each strictly below the threshold. -/
lemma canOffsetEncode_eq_true_iff (e0 e1 : Vec4) :
    canOffsetEncode e0 e1 = true ↔
      (|e1.x - e0.x| < offsetThreshold ∧ |e1.y - e0.y| < offsetThreshold ∧
        |e1.z - e0.z| < offsetThreshold) := by
  unfold canOffsetEncode
  rw [decide_eq_true_eq, maskBits_and7]
  simp [ltMask]

/-- Characterization of the blue-contract flag as the source computes it:
only the first three of the four packed proxies are tested. -/
lemma canBlueContract_eq_true_iff (e0 e1 : Vec4) :
    canBlueContract e0 e1 = true ↔
      ((bcLow < e0.x + (e0.x - e0.z) ∧ e0.x + (e0.x - e0.z) < bcHigh) ∧
       (bcLow < e1.x + (e1.x - e1.z) ∧ e1.x + (e1.x - e1.z) < bcHigh) ∧
       (bcLow < e0.y + (e0.y - e0.z) ∧ e0.y + (e0.y - e0.z) < bcHigh)) := by
  unfold canBlueContract
  rw [decide_eq_true_eq, maskBits_and7]
  simp [gtMask, ltMask, VMask4.land]

/-- Characterization of the spec-modelled blue-contract predicate: all four
proxies are tested. -/
lemma specCanBlueContract_eq_true_iff (e0 e1 : Vec4) :
    specCanBlueContract e0 e1 = true ↔
      ((bcLow < e0.x + (e0.x - e0.z) ∧ e0.x + (e0.x - e0.z) < bcHigh) ∧
       (bcLow < e1.x + (e1.x - e1.z) ∧ e1.x + (e1.x - e1.z) < bcHigh) ∧
       (bcLow < e0.y + (e0.y - e0.z) ∧ e0.y + (e0.y - e0.z) < bcHigh) ∧
       (bcLow < e1.y + (e1.y - e1.z) ∧ e1.y + (e1.y - e1.z) < bcHigh)) := by
  unfold specCanBlueContract
  simp
  tauto

lemma Vec4.mk_add (a b c d e f g h : ℚ) :
    (⟨a, b, c, d⟩ : Vec4) + ⟨e, f, g, h⟩ = ⟨a + e, b + f, c + g, d + h⟩ := rfl

lemma Vec4.mk_sub (a b c d e f g h : ℚ) :
    (⟨a, b, c, d⟩ : Vec4) - ⟨e, f, g, h⟩ = ⟨a - e, b - f, c - g, d - h⟩ := rfl

lemma Vec4.mk_mul (a b c d e f g h : ℚ) :
    (⟨a, b, c, d⟩ : Vec4) * ⟨e, f, g, h⟩ = ⟨a * e, b * f, c * g, d * h⟩ := rfl

lemma Vec4.mk_smul (q a b c d : ℚ) :
    Vec4.smul q ⟨a, b, c, d⟩ = ⟨q * a, q * b, q * c, q * d⟩ := rfl

/-- `sqrtQ` is exact on squares of naturals. -/
lemma sqrtQ_nat_sq (n : ℕ) : sqrtQ ((n : ℚ) * n) = n := by
  unfold sqrtQ
  have h1 : ((n : ℚ) * n) = ((n * n : ℕ) : ℚ) := by push_cast; ring
  rw [h1, Rat.num_natCast, Rat.den_natCast, Int.toNat_natCast, mul_one]
  rw [show n * n = n ^ 2 from (sq n).symm, Nat.sqrt_eq']
  simp

lemma sqrtQ_nine : sqrtQ 9 = 3 := by
  have h := sqrtQ_nat_sq 3
  norm_num at h
  exact h

lemma sqrtQ_36 : sqrtQ 36 = 6 := by
  have h := sqrtQ_nat_sq 6
  norm_num at h
  exact h

lemma normalize_wcsf : normalize ⟨2, 1, 2, 0⟩ = ⟨2/3, 1/3, 2/3, 0⟩ := by
  unfold normalize dot4s
  norm_num [sqrtQ_nine]

lemma normalize_wdir : normalize ⟨1, -2, 2, 0⟩ = ⟨1/3, -2/3, 2/3, 0⟩ := by
  unfold normalize dot4s
  norm_num [sqrtQ_nine]

lemma normalize_wavg : normalize ⟨4, 2, 4, 0⟩ = ⟨2/3, 1/3, 2/3, 0⟩ := by
  unfold normalize dot4s
  norm_num [sqrtQ_36]

lemma wStats_avg : wStats.averages 0 = ⟨4, 2, 4, 0⟩ := rfl

lemma wStats_dir : wStats.directions_rgb 0 = ⟨1, -2, 2, 0⟩ := rfl

lemma csfFor_w : csfFor wStats 0 = ⟨2, 1, 2, 0⟩ := rfl

lemma icsfFor_w : icsfFor wStats 0 = ⟨1/2, 1, 1/2, 0⟩ := by
  unfold icsfFor wStats Vec4.maxScalar Vec4.inv4 Vec4.setLane3 eps7
  norm_num

lemma procUncorr_w :
    procUncorr wStats 0 =
      ⟨⟨14/9, 34/9, 10/9, 0⟩, ⟨2/3, -2/3, 4/3, 0⟩, ⟨1/6, -2/3, 1/3, 0⟩⟩ := by
  simp only [procUncorr, uncorrLine, processLine, wStats_avg, wStats_dir, csfFor_w, icsfFor_w]
  rw [if_neg (show ¬ dot3s ⟨1, -2, 2, 0⟩ ⟨1, -2, 2, 0⟩ = 0 by norm_num [dot3s])]
  rw [normalize_wdir]
  simp only [dot3s, Vec4.mk_smul, Vec4.mk_sub, Vec4.mk_mul, ProcessedLine3.mk.injEq,
    Vec4.mk.injEq]
  norm_num

lemma procSamechroma_w :
    procSamechroma wStats 0 =
      ⟨⟨0, 0, 0, 0⟩, ⟨4/3, 1/3, 4/3, 0⟩, ⟨1/3, 1/3, 1/3, 0⟩⟩ := by
  simp only [procSamechroma, samechromaLine, processLine, wStats_avg, csfFor_w, icsfFor_w]
  rw [if_neg (show ¬ dot3s ⟨4, 2, 4, 0⟩ ⟨4, 2, 4, 0⟩ < eps20 by norm_num [dot3s, eps20])]
  rw [normalize_wavg]
  simp only [dot3s, Vec4.zero, Vec4.mk_smul, Vec4.mk_sub, Vec4.mk_mul,
    ProcessedLine3.mk.injEq, Vec4.mk.injEq]
  norm_num

lemma procRgbLuma_w :
    procRgbLuma wStats 0 =
      ⟨⟨0, 0, 0, 0⟩, ⟨4/3, 1/3, 4/3, 0⟩, ⟨1/3, 1/3, 1/3, 0⟩⟩ := by
  simp only [procRgbLuma, rgbLumaLine, processLine, wStats_avg, csfFor_w, icsfFor_w]
  rw [normalize_wcsf]
  simp only [dot3s, Vec4.mk_smul, Vec4.mk_sub, Vec4.mk_mul, ProcessedLine3.mk.injEq,
    Vec4.mk.injEq]
  norm_num

lemma procLuminance_w :
    procLuminance wStats 0 =
      ⟨⟨0, 0, 0, 0⟩, ⟨4/3, 1/3, 4/3, 0⟩, ⟨1/3, 1/3, 1/3, 0⟩⟩ := by
  simp only [procLuminance, luminanceProcessedLine, csfFor_w, icsfFor_w]
  rw [normalize_wcsf]
  simp only [Vec4.zero, Vec4.mk_mul, ProcessedLine3.mk.injEq, Vec4.mk.injEq]
  norm_num

lemma skipTexel_w : skipTexel 0 wPt wEwb 0 = false := by
  unfold skipTexel wPt wEwb eps20
  norm_num

/-- On the witness input, the same-chroma, HDR-luma and luminance lines fit
the single texel exactly while the (deliberately bad) uncorrelated
direction misses it. -/
lemma partitionErrorSums_w :
    partitionErrorSums wStats 1 wPt wBlk wEwb 0 = ⟨121/27, 0, 0, 0, 0⟩ := by
  unfold partitionErrorSums compute_error_squared_rgb_single_partition
  rw [procUncorr_w, procSamechroma_w, procRgbLuma_w, procLuminance_w]
  simp only [Finset.sum_range_one, skipTexel_w, if_false, Bool.false_eq_true]
  simp only [lineErrorTerm, lumaErrorTerm, alphaDropTerm]
  show ErrorSums.mk _ _ _ _ _ = _
  simp only [wBlk, wEwb, dot3s, Vec4.mk_smul, Vec4.mk_add, Vec4.mk_sub, Vec4.mk_mul,
    ErrorSums.mk.injEq]
  norm_num

/-- The accumulator's skip condition is the negation of the amended spec's
selection rule (partition matches and weight at least `1e-20`). -/
lemma skipTexel_eq_not_specSelectedGE (ptest : ℕ) (pt : PartitionInfo)
    (ewb : ErrorWeightBlock) (i : ℕ) :
    skipTexel ptest pt ewb i = !(specSelectedGE ptest pt ewb i) := by
  unfold skipTexel specSelectedGE
  by_cases h1 : pt.partition_of_texel i = ptest
  · by_cases h2 : ewb.texel_weight_rgb i < eps20
    · simp [h1, h2, not_le.mpr h2]
    · simp [h1, h2, le_of_not_lt h2]
  · simp [h1]

lemma lineErrorTerm_nonneg (pline : ProcessedLine3) (point ews : Vec4)
    (hx : 0 ≤ ews.x) (hy : 0 ≤ ews.y) (hz : 0 ≤ ews.z) :
    0 ≤ lineErrorTerm pline point ews := by
  unfold lineErrorTerm dot3s
  simp only [Vec4.mul_x, Vec4.mul_y, Vec4.mul_z, Vec4.sub_x, Vec4.sub_y, Vec4.sub_z]
  have t1 := mul_nonneg hx (mul_self_nonneg
    ((pline.amod + Vec4.smul (point.x * pline.bs.x + point.y * pline.bs.y +
      point.z * pline.bs.z) pline.bis).x - point.x))
  have t2 := mul_nonneg hy (mul_self_nonneg
    ((pline.amod + Vec4.smul (point.x * pline.bs.x + point.y * pline.bs.y +
      point.z * pline.bs.z) pline.bis).y - point.y))
  have t3 := mul_nonneg hz (mul_self_nonneg
    ((pline.amod + Vec4.smul (point.x * pline.bs.x + point.y * pline.bs.y +
      point.z * pline.bs.z) pline.bis).z - point.z))
  linarith

lemma lumaErrorTerm_nonneg (pline : ProcessedLine3) (point ews : Vec4)
    (hx : 0 ≤ ews.x) (hy : 0 ≤ ews.y) (hz : 0 ≤ ews.z) :
    0 ≤ lumaErrorTerm pline point ews := by
  unfold lumaErrorTerm dot3s
  simp only [Vec4.mul_x, Vec4.mul_y, Vec4.mul_z, Vec4.sub_x, Vec4.sub_y, Vec4.sub_z]
  have t1 := mul_nonneg hx (mul_self_nonneg
    ((Vec4.smul (point.x * pline.bs.x + point.y * pline.bs.y +
      point.z * pline.bs.z) pline.bis).x - point.x))
  have t2 := mul_nonneg hy (mul_self_nonneg
    ((Vec4.smul (point.x * pline.bs.x + point.y * pline.bs.y +
      point.z * pline.bs.z) pline.bis).y - point.y))
  have t3 := mul_nonneg hz (mul_self_nonneg
    ((Vec4.smul (point.x * pline.bs.x + point.y * pline.bs.y +
      point.z * pline.bs.z) pline.bis).z - point.z))
  linarith

lemma alphaDropTerm_nonneg (blk : ImageBlock) (ewb : ErrorWeightBlock) (i : ℕ)
    (hw : 0 ≤ (ewb.error_weights i).w) : 0 ≤ alphaDropTerm blk ewb i := by
  unfold alphaDropTerm
  exact mul_nonneg (mul_self_nonneg _) hw

/-- Each of the five accumulator sums is non-negative when every channel
error weight is non-negative. -/
lemma errorSums_nonneg (ptest texel_count : ℕ) (pt : PartitionInfo) (blk : ImageBlock)
    (ewb : ErrorWeightBlock) (pu ps pr pl : ProcessedLine3) (hw : nonnegWeights ewb) :
    0 ≤ (compute_error_squared_rgb_single_partition ptest texel_count pt blk ewb
          pu ps pr pl).uncor_err ∧
    0 ≤ (compute_error_squared_rgb_single_partition ptest texel_count pt blk ewb
          pu ps pr pl).samec_err ∧
    0 ≤ (compute_error_squared_rgb_single_partition ptest texel_count pt blk ewb
          pu ps pr pl).rgbl_err ∧
    0 ≤ (compute_error_squared_rgb_single_partition ptest texel_count pt blk ewb
          pu ps pr pl).l_err ∧
    0 ≤ (compute_error_squared_rgb_single_partition ptest texel_count pt blk ewb
          pu ps pr pl).a_drop_err := by
  unfold compute_error_squared_rgb_single_partition
  dsimp only
  refine ⟨?_, ?_, ?_, ?_, ?_⟩ <;>
    refine Finset.sum_nonneg fun i _ => ?_ <;>
      by_cases h : skipTexel ptest pt ewb i <;> simp only [h, if_true, if_false, le_refl,
        Bool.false_eq_true, Bool.true_eq_false]
  · exact lineErrorTerm_nonneg pu _ _ (hw i).1 (hw i).2.1 (hw i).2.2.1
  · exact lineErrorTerm_nonneg ps _ _ (hw i).1 (hw i).2.1 (hw i).2.2.1
  · exact lineErrorTerm_nonneg pr _ _ (hw i).1 (hw i).2.1 (hw i).2.2.1
  · exact lumaErrorTerm_nonneg pl _ _ (hw i).1 (hw i).2.1 (hw i).2.2.1
  · exact alphaDropTerm_nonneg blk ewb i (hw i).2.2.2

/-- Splitting one accumulator sum at a non-skipped texel. -/
lemma sum_if_skip_split (ptest : ℕ) (pt : PartitionInfo) (ewb : ErrorWeightBlock)
    (texel_count i : ℕ) (hi : i < texel_count)
    (hskip : skipTexel ptest pt ewb i = false) (g : ℕ → ℚ) :
    (∑ j in Finset.range texel_count, if skipTexel ptest pt ewb j then 0 else g j) =
      g i + ∑ j in (Finset.range texel_count).erase i,
        (if skipTexel ptest pt ewb j then 0 else g j) := by
  rw [← Finset.add_sum_erase (Finset.range texel_count) _ (Finset.mem_range.mpr hi)]
  rw [hskip]
  simp

/-- C1: the claim states `can_blue_contract` is true iff all four
contracted proxies lie strictly between the bounds.  The code disagrees:
the four proxies are packed as (R0, R1, G0, G1) and the mask test keeps
only the low three lanes, so the second endpoint's green proxy is ignored.
At the concrete endpoints below that proxy equals 100000, far above the
upper bound, yet the program's flag is true while the spec-modelled
all-four test is false.  This is evaluated both at the extracted flag and
through the full per-partition evaluator output. -/
theorem claim_c1_blue_contract_fourth_proxy_ignored :
    (encodingChoiceErrorFor wStats 1 wPt wBlk wEwb bugEp 0).can_blue_contract = true ∧
    specCanBlueContract ⟨30000, 30000, 30000, 0⟩ ⟨30000, 60000, 20000, 0⟩ = false ∧
    ¬ (bcLow < 60000 + (60000 - 20000) ∧ (60000 + (60000 - 20000) : ℚ) < bcHigh) := by
  refine ⟨?_, ?_, ?_⟩
  · have h : (encodingChoiceErrorFor wStats 1 wPt wBlk wEwb bugEp 0).can_blue_contract =
        canBlueContract ⟨30000, 30000, 30000, 0⟩ ⟨30000, 60000, 20000, 0⟩ := rfl
    rw [h, canBlueContract_eq_true_iff]
    norm_num [bcLow, bcHigh]
  · rw [Bool.eq_false_iff, Ne, specCanBlueContract_eq_true_iff]
    intro h
    have h4 := h.2.2.2.2
    norm_num [bcHigh] at h4
  · intro h
    have h4 := h.2
    norm_num [bcHigh] at h4

/-- C2 counterexample: the claim's selection rule (weight strictly EXCEEDS
`1e-20`) disagrees with the code at a texel whose weight is exactly
`1e-20`: the code's alpha-drop sum includes the texel's contribution
(`65535^2 = 4294836225`), the spec-modelled strict accumulator returns 0. -/
theorem claim_c2_strict_threshold_counterexample :
    (compute_error_squared_rgb_single_partition 0 1 cPt cBlk cEwb
        plZero plZero plZero plZero).a_drop_err = 4294836225 ∧
    (specErrorSums (specSelectedStrict 0 cPt cEwb) 1 cBlk cEwb
        plZero plZero plZero plZero).a_drop_err = 0 := by
  constructor
  · show (∑ i in Finset.range 1,
        if skipTexel 0 cPt cEwb i then (0 : ℚ) else alphaDropTerm cBlk cEwb i) = _
    rw [Finset.sum_range_one]
    have hskip : skipTexel 0 cPt cEwb 0 = false := by
      unfold skipTexel cPt cEwb
      norm_num
    rw [hskip]
    simp only [Bool.false_eq_true, if_false]
    unfold alphaDropTerm cBlk cEwb
    norm_num
  · show (∑ i in Finset.range 1,
        if specSelectedStrict 0 cPt cEwb i then alphaDropTerm cBlk cEwb i else (0 : ℚ)) = _
    rw [Finset.sum_range_one]
    have hsel : specSelectedStrict 0 cPt cEwb 0 = false := by
      unfold specSelectedStrict cPt cEwb
      simp
    rw [hsel]
    simp

/-- C2 (amended): the accumulator computes its five sums over exactly the
texels whose partition id matches and whose RGB error weight is AT LEAST
`1e-20`; and a partition in which every matching texel's RGB weight is
below `1e-20` yields all five sums equal to 0. -/
theorem claim_c2_amended_threshold :
    (∀ (ptest texel_count : ℕ) (pt : PartitionInfo) (blk : ImageBlock)
        (ewb : ErrorWeightBlock) (pu ps pr pl : ProcessedLine3),
      compute_error_squared_rgb_single_partition ptest texel_count pt blk ewb pu ps pr pl =
        specErrorSums (specSelectedGE ptest pt ewb) texel_count blk ewb pu ps pr pl) ∧
    (∀ (ptest texel_count : ℕ) (pt : PartitionInfo) (blk : ImageBlock)
        (ewb : ErrorWeightBlock) (pu ps pr pl : ProcessedLine3),
      (∀ i, i < texel_count → pt.partition_of_texel i = ptest →
        ewb.texel_weight_rgb i < eps20) →
      compute_error_squared_rgb_single_partition ptest texel_count pt blk ewb pu ps pr pl =
        ⟨0, 0, 0, 0, 0⟩) := by
  constructor
  · intro ptest texel_count pt blk ewb pu ps pr pl
    unfold compute_error_squared_rgb_single_partition specErrorSums
    simp only [ErrorSums.mk.injEq]
    refine ⟨?_, ?_, ?_, ?_, ?_⟩ <;>
      refine Finset.sum_congr rfl fun i _ => ?_ <;>
        rw [skipTexel_eq_not_specSelectedGE] <;>
          cases hb : specSelectedGE ptest pt ewb i <;> simp [hb]
  · intro ptest texel_count pt blk ewb pu ps pr pl h
    have hskip : ∀ i, i ∈ Finset.range texel_count → skipTexel ptest pt ewb i = true := by
      intro i hi
      unfold skipTexel
      by_cases h1 : pt.partition_of_texel i = ptest
      · simp [h1, h i (Finset.mem_range.mp hi) h1]
      · simp [h1]
    unfold compute_error_squared_rgb_single_partition
    simp only [ErrorSums.mk.injEq]
    refine ⟨?_, ?_, ?_, ?_, ?_⟩ <;>
      exact Finset.sum_eq_zero fun i hi => by rw [hskip i hi]; simp

/-- C2 witness: the amended theorem applied at concrete inputs — a block
whose only texel's weight is exactly `1e-20` (part 1), and one whose
weights are all zero, hence below the cutoff, yielding all-zero sums
(part 2). -/
theorem claim_c2_amended_threshold_witness :
    compute_error_squared_rgb_single_partition 0 1 cPt cBlk zEwb
        plZero plZero plZero plZero = ⟨0, 0, 0, 0, 0⟩ ∧
    compute_error_squared_rgb_single_partition 0 1 cPt cBlk cEwb
        plZero plZero plZero plZero =
      specErrorSums (specSelectedGE 0 cPt cEwb) 1 cBlk cEwb
        plZero plZero plZero plZero := by
  constructor
  · refine claim_c2_amended_threshold.2 0 1 cPt cBlk zEwb plZero plZero plZero plZero ?_
    intro i hi hp
    show (0 : ℚ) < eps20
    norm_num [eps20]
  · exact claim_c2_amended_threshold.1 0 1 cPt cBlk cEwb plZero plZero plZero plZero

/-- C3: for every partition, the four error fields of the output record are
exactly `(samechroma - uncorrelated) * 0.7`, `(hdr_luma - uncorrelated) *
1.5`, `(luminance - uncorrelated) * 3.0` and `alpha_drop * 3.0`, where the
five sums are the accumulator's outputs for that partition. -/
theorem claim_c3_calibrated_error_fields (stats : ColorStatistics) (texel_count : ℕ)
    (pt : PartitionInfo) (blk : ImageBlock) (ewb : ErrorWeightBlock)
    (ep : Endpoints) (i : ℕ) :
    (encodingChoiceErrorFor stats texel_count pt blk ewb ep i).rgb_scale_error =
      ((partitionErrorSums stats texel_count pt blk ewb i).samec_err -
        (partitionErrorSums stats texel_count pt blk ewb i).uncor_err) * (7 / 10) ∧
    (encodingChoiceErrorFor stats texel_count pt blk ewb ep i).rgb_luma_error =
      ((partitionErrorSums stats texel_count pt blk ewb i).rgbl_err -
        (partitionErrorSums stats texel_count pt blk ewb i).uncor_err) * (3 / 2) ∧
    (encodingChoiceErrorFor stats texel_count pt blk ewb ep i).luminance_error =
      ((partitionErrorSums stats texel_count pt blk ewb i).l_err -
        (partitionErrorSums stats texel_count pt blk ewb i).uncor_err) * 3 ∧
    (encodingChoiceErrorFor stats texel_count pt blk ewb ep i).alpha_drop_error =
      (partitionErrorSums stats texel_count pt blk ewb i).a_drop_err * 3 :=
  ⟨rfl, rfl, rfl, rfl⟩

/-- C4: `can_offset_encode` is true iff the absolute endpoint difference of
each of R, G and B is strictly below `0.12 * 65535`; changing only the
alpha lanes of the endpoints never changes the flag. -/
theorem claim_c4_can_offset_encode_rgb_only (stats : ColorStatistics) (texel_count : ℕ)
    (pt : PartitionInfo) (blk : ImageBlock) (ewb : ErrorWeightBlock)
    (ep : Endpoints) (i : ℕ) :
    ((encodingChoiceErrorFor stats texel_count pt blk ewb ep i).can_offset_encode = true ↔
      (|(ep.endpt1 i).x - (ep.endpt0 i).x| < offsetThreshold ∧
       |(ep.endpt1 i).y - (ep.endpt0 i).y| < offsetThreshold ∧
       |(ep.endpt1 i).z - (ep.endpt0 i).z| < offsetThreshold)) ∧
    (∀ a0 a1 : ℚ,
      canOffsetEncode ((ep.endpt0 i).setLane3 a0) ((ep.endpt1 i).setLane3 a1) =
        canOffsetEncode (ep.endpt0 i) (ep.endpt1 i)) := by
  constructor
  · have h : (encodingChoiceErrorFor stats texel_count pt blk ewb ep i).can_offset_encode =
        canOffsetEncode (ep.endpt0 i) (ep.endpt1 i) := rfl
    rw [h, canOffsetEncode_eq_true_iff]
  · intro a0 a1
    have h1 := canOffsetEncode_eq_true_iff ((ep.endpt0 i).setLane3 a0)
      ((ep.endpt1 i).setLane3 a1)
    have h2 := canOffsetEncode_eq_true_iff (ep.endpt0 i) (ep.endpt1 i)
    simp only [Vec4.setLane3_x, Vec4.setLane3_y, Vec4.setLane3_z] at h1
    rw [← h2] at h1
    exact Bool.eq_iff_iff.mpr h1

/-- C5: for every pair of endpoint sets covering the same partitions and
every separate component c, the merged set takes lane c of both endpoints
from the second set and every other lane from the first, for every covered
partition. -/
theorem claim_c5_merge_endpoints_lanes (ep1 ep2 : Endpoints) (c : ℕ) (hc : c < 4)
    (i : ℕ) (hi : i < ep1.partition_count) (j : Fin 4) :
    (((merge_endpoints ep1 ep2 c).endpt0 i).lane j =
      if (j : ℕ) = c then (ep2.endpt0 i).lane j else (ep1.endpt0 i).lane j) ∧
    (((merge_endpoints ep1 ep2 c).endpt1 i).lane j =
      if (j : ℕ) = c then (ep2.endpt1 i).lane j else (ep1.endpt1 i).lane j) := by
  unfold merge_endpoints select4 laneIdEq
  simp only [if_pos hi]
  obtain ⟨jv, hj⟩ := j
  interval_cases jv <;> interval_cases c <;> simp [Vec4.lane]

/-- C5 witness: merging two concrete endpoint sets with separate component
1 takes the green lane from the second set and the other lanes from the
first. -/
theorem claim_c5_merge_endpoints_lanes_witness :
    ((merge_endpoints mEp1 mEp2 1).endpt0 0).lane 1 = 51 ∧
    ((merge_endpoints mEp1 mEp2 1).endpt0 0).lane 0 = 10 ∧
    ((merge_endpoints mEp1 mEp2 1).endpt1 0).lane 3 = 23 := by
  have h1 := (claim_c5_merge_endpoints_lanes mEp1 mEp2 1 (by norm_num) 0
    (by norm_num [mEp1]) 1).1
  have h2 := (claim_c5_merge_endpoints_lanes mEp1 mEp2 1 (by norm_num) 0
    (by norm_num [mEp1]) 0).1
  have h3 := (claim_c5_merge_endpoints_lanes mEp1 mEp2 1 (by norm_num) 0
    (by norm_num [mEp1]) 3).2
  simp only [Fin.isValue] at h1 h2 h3
  norm_num [mEp1, mEp2, Vec4.lane] at h1 h2 h3
  exact ⟨h1, h2, h3⟩

/-- C6: for every selected texel the alpha-drop sum receives exactly the
texel's alpha error weight times the squared difference between its alpha
and the fixed default — `0x7800 = 30720` when the texel's HDR/logarithmic
alpha flag is set, `0xFFFF = 65535` otherwise. -/
theorem claim_c6_alpha_drop_accumulation (ptest texel_count : ℕ) (pt : PartitionInfo)
    (blk : ImageBlock) (ewb : ErrorWeightBlock) (pu ps pr pl : ProcessedLine3) :
    (compute_error_squared_rgb_single_partition ptest texel_count pt blk ewb
        pu ps pr pl).a_drop_err =
      ∑ i in Finset.range texel_count,
        if skipTexel ptest pt ewb i then (0 : ℚ)
        else (ewb.error_weights i).w *
          (((blk.texel i).w - (if blk.alpha_lns i then (30720 : ℚ) else 65535)) *
           ((blk.texel i).w - (if blk.alpha_lns i then (30720 : ℚ) else 65535))) := by
  show (∑ i in Finset.range texel_count,
      if skipTexel ptest pt ewb i then (0 : ℚ) else alphaDropTerm blk ewb i) = _
  refine Finset.sum_congr rfl fun i _ => ?_
  by_cases h : skipTexel ptest pt ewb i
  · simp [h]
  · simp [h, alphaDropTerm]
    ring

/-- C7: the same-chroma line has origin zero; its direction is the
normalized average when the average's squared 3-component length is at
least `1e-20` and the normalized (alpha-zeroed) scale-factor vector
otherwise; in particular an exactly-zero average takes the scale-derived
fallback.  (In this exact-rational embedding every produced value is a
well-defined rational, the analogue of the claim's freedom from NaN and
infinities.) -/
theorem claim_c7_samechroma_fallback (stats : ColorStatistics) (i : ℕ) :
    (samechromaLine (stats.averages i) (csfFor stats i)).a = Vec4.zero ∧
    (¬ dot3s (stats.averages i) (stats.averages i) < eps20 →
      (samechromaLine (stats.averages i) (csfFor stats i)).b =
        normalize (stats.averages i)) ∧
    (dot3s (stats.averages i) (stats.averages i) < eps20 →
      (samechromaLine (stats.averages i) (csfFor stats i)).b =
        normalize (csfFor stats i)) ∧
    (stats.averages i = Vec4.zero →
      (samechromaLine (stats.averages i) (csfFor stats i)).b =
        normalize (csfFor stats i)) := by
  refine ⟨rfl, fun h => ?_, fun h => ?_, fun h => ?_⟩
  · unfold samechromaLine
    rw [if_neg h]
  · unfold samechromaLine
    rw [if_pos h]
  · unfold samechromaLine
    rw [if_pos]
    rw [h]
    norm_num [dot3s, Vec4.zero, eps20]

/-- C7 witness: the theorem applied to a concrete non-degenerate average
(taking the normalized-average branch) and to a concrete zero average
(taking the scale-derived fallback). -/
theorem claim_c7_samechroma_fallback_witness :
    (samechromaLine (wStats.averages 0) (csfFor wStats 0)).b =
      normalize (wStats.averages 0) ∧
    (samechromaLine (zStats.averages 0) (csfFor zStats 0)).b =
      normalize (csfFor zStats 0) := by
  constructor
  · refine (claim_c7_samechroma_fallback wStats 0).2.1 ?_
    rw [wStats_avg]
    norm_num [dot3s, eps20]
  · exact (claim_c7_samechroma_fallback zStats 0).2.2.2 rfl

/-- C9: with non-negative channel error weights, each of the accumulator's
five sums is non-negative, and hence the `alpha_drop_error` output field
(the alpha-drop sum times 3) is non-negative; the three delta fields can be
negative, as the concrete evaluation in the last conjunct shows. -/
theorem claim_c9_nonneg_sums :
    (∀ (ptest texel_count : ℕ) (pt : PartitionInfo) (blk : ImageBlock)
        (ewb : ErrorWeightBlock) (pu ps pr pl : ProcessedLine3),
      nonnegWeights ewb →
        0 ≤ (compute_error_squared_rgb_single_partition ptest texel_count pt blk ewb
              pu ps pr pl).uncor_err ∧
        0 ≤ (compute_error_squared_rgb_single_partition ptest texel_count pt blk ewb
              pu ps pr pl).samec_err ∧
        0 ≤ (compute_error_squared_rgb_single_partition ptest texel_count pt blk ewb
              pu ps pr pl).rgbl_err ∧
        0 ≤ (compute_error_squared_rgb_single_partition ptest texel_count pt blk ewb
              pu ps pr pl).l_err ∧
        0 ≤ (compute_error_squared_rgb_single_partition ptest texel_count pt blk ewb
              pu ps pr pl).a_drop_err) ∧
    (∀ (stats : ColorStatistics) (texel_count : ℕ) (pt : PartitionInfo)
        (blk : ImageBlock) (ewb : ErrorWeightBlock) (ep : Endpoints) (i : ℕ),
      nonnegWeights ewb →
        0 ≤ (encodingChoiceErrorFor stats texel_count pt blk ewb ep i).alpha_drop_error) ∧
    ((encodingChoiceErrorFor wStats 1 wPt wBlk wEwb wEp 0).rgb_scale_error < 0 ∧
     (encodingChoiceErrorFor wStats 1 wPt wBlk wEwb wEp 0).rgb_luma_error < 0 ∧
     (encodingChoiceErrorFor wStats 1 wPt wBlk wEwb wEp 0).luminance_error < 0) := by
  refine ⟨?_, ?_, ?_⟩
  · intro ptest texel_count pt blk ewb pu ps pr pl hw
    exact errorSums_nonneg ptest texel_count pt blk ewb pu ps pr pl hw
  · intro stats texel_count pt blk ewb ep i hw
    have h : (encodingChoiceErrorFor stats texel_count pt blk ewb ep i).alpha_drop_error =
        (partitionErrorSums stats texel_count pt blk ewb i).a_drop_err * 3 := rfl
    rw [h]
    have hs := (errorSums_nonneg i texel_count pt blk ewb
      (procUncorr stats i) (procSamechroma stats i) (procRgbLuma stats i)
      (procLuminance stats i) hw).2.2.2.2
    have h3 : (0 : ℚ) ≤ 3 := by norm_num
    exact mul_nonneg hs h3
  · have h : encodingChoiceErrorFor wStats 1 wPt wBlk wEwb wEp 0 =
        { rgb_scale_error := ((0 : ℚ) - 121/27) * (7/10)
          rgb_luma_error := ((0 : ℚ) - 121/27) * (3/2)
          luminance_error := ((0 : ℚ) - 121/27) * 3
          alpha_drop_error := (0 : ℚ) * 3
          can_offset_encode := canOffsetEncode (wEp.endpt0 0) (wEp.endpt1 0)
          can_blue_contract := canBlueContract (wEp.endpt0 0) (wEp.endpt1 0) } := by
      unfold encodingChoiceErrorFor
      rw [partitionErrorSums_w]
    rw [h]
    norm_num

/-- C9 witness: the non-negativity statements applied at concrete inputs
with unit weights. -/
theorem claim_c9_nonneg_sums_witness :
    0 ≤ (compute_error_squared_rgb_single_partition 0 1 wPt wBlk wEwb
          plZero plZero plZero plZero).uncor_err ∧
    0 ≤ (encodingChoiceErrorFor wStats 1 wPt wBlk wEwb wEp 0).alpha_drop_error := by
  have hw : nonnegWeights wEwb := by
    intro i
    norm_num [wEwb]
  exact ⟨(claim_c9_nonneg_sums.1 0 1 wPt wBlk wEwb plZero plZero plZero plZero hw).1,
    claim_c9_nonneg_sums.2.1 wStats 1 wPt wBlk wEwb wEp 0 hw⟩

/-- C10: a texel whose partition matches and whose RGB weight equals
exactly `1e-20` is NOT skipped, and each of the five sums decomposes as
that texel's contribution plus the sum over the remaining texels. -/
theorem claim_c10_boundary_weight_included (ptest texel_count : ℕ) (pt : PartitionInfo)
    (blk : ImageBlock) (ewb : ErrorWeightBlock) (pu ps pr pl : ProcessedLine3) (i : ℕ)
    (hi : i < texel_count) (hp : pt.partition_of_texel i = ptest)
    (hw : ewb.texel_weight_rgb i = eps20) :
    skipTexel ptest pt ewb i = false ∧
    (compute_error_squared_rgb_single_partition ptest texel_count pt blk ewb
        pu ps pr pl).uncor_err =
      lineErrorTerm pu (blk.texel i) (ewb.error_weights i) +
        ∑ j in (Finset.range texel_count).erase i,
          (if skipTexel ptest pt ewb j then 0
           else lineErrorTerm pu (blk.texel j) (ewb.error_weights j)) ∧
    (compute_error_squared_rgb_single_partition ptest texel_count pt blk ewb
        pu ps pr pl).samec_err =
      lineErrorTerm ps (blk.texel i) (ewb.error_weights i) +
        ∑ j in (Finset.range texel_count).erase i,
          (if skipTexel ptest pt ewb j then 0
           else lineErrorTerm ps (blk.texel j) (ewb.error_weights j)) ∧
    (compute_error_squared_rgb_single_partition ptest texel_count pt blk ewb
        pu ps pr pl).rgbl_err =
      lineErrorTerm pr (blk.texel i) (ewb.error_weights i) +
        ∑ j in (Finset.range texel_count).erase i,
          (if skipTexel ptest pt ewb j then 0
           else lineErrorTerm pr (blk.texel j) (ewb.error_weights j)) ∧
    (compute_error_squared_rgb_single_partition ptest texel_count pt blk ewb
        pu ps pr pl).l_err =
      lumaErrorTerm pl (blk.texel i) (ewb.error_weights i) +
        ∑ j in (Finset.range texel_count).erase i,
          (if skipTexel ptest pt ewb j then 0
           else lumaErrorTerm pl (blk.texel j) (ewb.error_weights j)) ∧
    (compute_error_squared_rgb_single_partition ptest texel_count pt blk ewb
        pu ps pr pl).a_drop_err =
      alphaDropTerm blk ewb i +
        ∑ j in (Finset.range texel_count).erase i,
          (if skipTexel ptest pt ewb j then 0 else alphaDropTerm blk ewb j) := by
  have hskip : skipTexel ptest pt ewb i = false := by
    unfold skipTexel
    simp [hp, hw]
  refine ⟨hskip, ?_, ?_, ?_, ?_, ?_⟩
  · show (∑ j in Finset.range texel_count, if skipTexel ptest pt ewb j then (0 : ℚ)
      else lineErrorTerm pu (blk.texel j) (ewb.error_weights j)) = _
    exact sum_if_skip_split ptest pt ewb texel_count i hi hskip _
  · show (∑ j in Finset.range texel_count, if skipTexel ptest pt ewb j then (0 : ℚ)
      else lineErrorTerm ps (blk.texel j) (ewb.error_weights j)) = _
    exact sum_if_skip_split ptest pt ewb texel_count i hi hskip _
  · show (∑ j in Finset.range texel_count, if skipTexel ptest pt ewb j then (0 : ℚ)
      else lineErrorTerm pr (blk.texel j) (ewb.error_weights j)) = _
    exact sum_if_skip_split ptest pt ewb texel_count i hi hskip _
  · show (∑ j in Finset.range texel_count, if skipTexel ptest pt ewb j then (0 : ℚ)
      else lumaErrorTerm pl (blk.texel j) (ewb.error_weights j)) = _
    exact sum_if_skip_split ptest pt ewb texel_count i hi hskip _
  · show (∑ j in Finset.range texel_count, if skipTexel ptest pt ewb j then (0 : ℚ)
      else alphaDropTerm blk ewb j) = _
    exact sum_if_skip_split ptest pt ewb texel_count i hi hskip _

/-- C10 witness: the theorem applied at a concrete block whose single texel
has weight exactly `1e-20`. -/
theorem claim_c10_boundary_weight_included_witness :
    skipTexel 0 cPt cEwb 0 = false ∧
    (compute_error_squared_rgb_single_partition 0 1 cPt cBlk cEwb
        plZero plZero plZero plZero).a_drop_err =
      alphaDropTerm cBlk cEwb 0 +
        ∑ j in (Finset.range 1).erase 0,
          (if skipTexel 0 cPt cEwb j then 0 else alphaDropTerm cBlk cEwb j) := by
  have h := claim_c10_boundary_weight_included 0 1 cPt cBlk cEwb
    plZero plZero plZero plZero 0 (by norm_num) rfl rfl
  exact ⟨h.1, h.2.2.2.2.2⟩

end Astc
